import Mathlib

/-!
Shallow embedding of `src/streamlit_app.py` (a single-file Streamlit agent
demo) and proofs about its post-processing, tool assembly and UI gating
logic.

External libraries (LangChain, OpenAI, Tavily, FAISS, pandas, Streamlit)
are black boxes to the program; the embedding models only the data the
program itself constructs and inspects, and takes the results of external
calls (the agent executor invocation) as inputs.
-/

/-- A Python runtime value, as far as `ask_agent` inspects one: the
observations in `intermediate_steps` are arbitrary Python values (the
tools in this program produce strings, lists, or `None`), and the code
uses only their truthiness (`if obs`) and their string conversion
(`str(obs)`). The constructors cover the builtin value shapes that can
flow through this program. -/
inductive PyVal where
  | none
  | bool (b : Bool)
  | int (n : Int)
  | str (s : String)
  | list (xs : List PyVal)

/-- Python truthiness (`bool(v)`): `None`, `False`, `0`, `""` and `[]`
are falsy, everything else here is truthy. -/
def pyTruthy : PyVal → Bool
  | PyVal.none => false
  | PyVal.bool b => b
  | PyVal.int n => decide (n ≠ 0)
  | PyVal.str s => decide (s ≠ "")
  | PyVal.list xs => !xs.isEmpty

mutual

/-- Python `repr(v)`. For strings, quoting is modelled as surrounding
the text with `\x27` quotes; escaping of quote characters inside the
string is not modelled (no value in this development contains one). -/
def pyRepr : PyVal → String
  | PyVal.none => "None"
  | PyVal.bool b => if b then "True" else "False"
  | PyVal.int n => toString n
  | PyVal.str s => "\x27" ++ s ++ "\x27"
  | PyVal.list xs => "[" ++ String.intercalate ", " (pyReprList xs) ++ "]"

/-- Element-wise `repr`, as CPython prints the elements of a list. -/
def pyReprList : List PyVal → List String
  | [] => []
  | v :: vs => pyRepr v :: pyReprList vs

end

/-- Python `str(v)`: the string itself for a string, `repr` otherwise. -/
def pyStr : PyVal → String
  | PyVal.str s => s
  | v => pyRepr v

/-- Python `str.strip()`: drop surrounding whitespace characters
(modelled on the character list of the string). -/
def pyStrip (s : List Char) : List Char :=
  ((s.dropWhile Char.isWhitespace).reverse.dropWhile Char.isWhitespace).reverse

/-- One entry of `result["intermediate_steps"]`: `step[0].tool` and the
raw observation `step[1]`. -/
structure AgentStep where
  tool : String
  obs : PyVal

/-- The dictionary returned by `agent_executor.invoke`: the final answer
`result["output"]` and `result.get("intermediate_steps", [])` (the
executor is built with `return_intermediate_steps=True`, so the key is
present). -/
structure AgentResult where
  output : String
  intermediate_steps : List AgentStep

/-- The `for step in result.get("intermediate_steps", [])` loop of
`ask_agent` (src/streamlit_app.py lines 100-109): `csv_repl` is appended
unconditionally; any other tool is appended only when
`obs and len(str(obs).strip()) > 30`. Python `len` counts code points,
modelled by the length of the string's character list. -/
def usedToolsLoop : List AgentStep → List String
  | [] => []
  | step :: rest =>
    if step.tool = "csv_repl" then
      step.tool :: usedToolsLoop rest
    else if pyTruthy step.obs && decide (30 < (pyStrip (pyStr step.obs).data).length) then
      step.tool :: usedToolsLoop rest
    else
      usedToolsLoop rest

/-- The condition under which the loop keeps a step: either the tool is
`csv_repl`, or `obs and len(str(obs).strip()) > 30`. -/
def stepKeeps (step : AgentStep) : Bool :=
  (step.tool == "csv_repl") ||
    (pyTruthy step.obs && decide (30 < (pyStrip (pyStr step.obs).data).length))

/-- The f-string of line 112:
`f" 답변:\n{answer}\n\n 사용된 툴: {', '.join(used_tools) if used_tools else '없음'}"`. -/
def formatAnswer (answer : String) (used_tools : List String) : String :=
  " 답변:\n" ++ answer ++ "\n\n 사용된 툴: " ++
    (if used_tools.isEmpty then "없음" else String.intercalate ", " used_tools)

/-- `ask_agent` (src/streamlit_app.py lines 96-112). The call
`agent_executor.invoke({"input": question})` is an external LLM
round-trip, so the embedding takes its result as the input. The
`used_tools = list(set(used_tools))` deduplication is modelled by
`List.dedup`; CPython set iteration order is an implementation detail,
captured separately by `IsAskAgentOutput`. -/
def ask_agent (result : AgentResult) : String :=
  formatAnswer result.output (usedToolsLoop result.intermediate_steps).dedup

/-- The set of strings `ask_agent` can return for a given executor
result, one for each enumeration order of `set(used_tools)`. -/
def IsAskAgentOutput (result : AgentResult) (s : String) : Prop :=
  ∃ l : List String,
    List.Perm l (usedToolsLoop result.intermediate_steps).dedup ∧
    s = formatAnswer result.output l

/-- Every falsy builtin Python value has a short string form: `None`,
`False`, `0`, `""` and `[]` all print in at most 30 characters. -/
theorem pyStr_strip_short_of_falsy (v : PyVal) (h : pyTruthy v = false) :
    (pyStrip (pyStr v).data).length ≤ 30 := by
  cases v with
  | none => decide
  | bool b =>
    cases b with
    | false => decide
    | true => simp [pyTruthy] at h
  | int n =>
    have hn : n = 0 := by simpa [pyTruthy] using h
    subst hn; decide
  | str s =>
    have hs : s = "" := by simpa [pyTruthy] using h
    subst hs; decide
  | list xs =>
    cases xs with
    | nil => decide
    | cons a l => simp [pyTruthy] at h

/-- The loop is the map of the tool name over the steps passing the
filter condition. -/
theorem usedToolsLoop_eq_filter_map (steps : List AgentStep) :
    usedToolsLoop steps = (steps.filter stepKeeps).map AgentStep.tool := by
  induction steps with
  | nil => rfl
  | cons step rest ih =>
    by_cases h1 : step.tool = "csv_repl"
    · simp [usedToolsLoop, stepKeeps, h1, List.filter_cons, ih]
    · by_cases h2 :
        (pyTruthy step.obs && decide (30 < (pyStrip (pyStr step.obs).data).length)) = true
      · simp [usedToolsLoop, stepKeeps, h1, h2, List.filter_cons, ih]
      · simp [usedToolsLoop, stepKeeps, h1, h2, List.filter_cons, ih]

/-- Unfolding of the filter condition into a proposition. -/
theorem stepKeeps_iff (step : AgentStep) :
    stepKeeps step = true ↔
      step.tool = "csv_repl" ∨
        (pyTruthy step.obs = true ∧ 30 < (pyStrip (pyStr step.obs).data).length) := by
  simp [stepKeeps]

/-- Membership in the raw (pre-deduplication) `used_tools` list. -/
theorem mem_usedToolsLoop {t : String} {steps : List AgentStep} :
    t ∈ usedToolsLoop steps ↔
      ∃ step, step ∈ steps ∧ stepKeeps step = true ∧ step.tool = t := by
  rw [usedToolsLoop_eq_filter_map]
  simp only [List.mem_map, List.mem_filter]
  constructor
  · rintro ⟨s, ⟨hs, hk⟩, ht⟩
    exact ⟨s, hs, hk, ht⟩
  · rintro ⟨s, hs, hk, ht⟩
    exact ⟨s, ⟨hs, hk⟩, ht⟩

/-- C1: a tool name appears in the used-tools summary of `ask_agent` iff
some step carries that name and either the name is `csv_repl` or the
step's observation, stringified and trimmed, is longer than 30
characters. (The truthiness guard `if obs` adds nothing over the builtin
Python values that can appear here: every falsy one prints in at most 30
characters, by `pyStr_strip_short_of_falsy`.) -/
theorem used_tools_summary_iff (steps : List AgentStep) (t : String) :
    t ∈ (usedToolsLoop steps).dedup ↔
      ∃ step, step ∈ steps ∧ step.tool = t ∧
        (t = "csv_repl" ∨ 30 < (pyStrip (pyStr step.obs).data).length) := by
  rw [List.mem_dedup, mem_usedToolsLoop]
  constructor
  · rintro ⟨s, hs, hk, ht⟩
    rcases (stepKeeps_iff s).mp hk with hc | hc
    · exact ⟨s, hs, ht, Or.inl (ht ▸ hc)⟩
    · exact ⟨s, hs, ht, Or.inr hc.2⟩
  · rintro ⟨s, hs, ht, hc | hc⟩
    · exact ⟨s, hs, (stepKeeps_iff s).mpr (Or.inl (ht.trans hc)), ht⟩
    · refine ⟨s, hs, (stepKeeps_iff s).mpr (Or.inr ⟨?_, hc⟩), ht⟩
      cases htr : pyTruthy s.obs with
      | true => rfl
      | false =>
        have := pyStr_strip_short_of_falsy s.obs htr
        omega

/-- C2: with an empty intermediate-steps sequence no tool qualifies, and
the string returned by `ask_agent` renders the tool-usage part as the
literal marker `없음`. -/
theorem empty_steps_renders_none (answer : String) :
    ask_agent ⟨answer, []⟩ =
      " 답변:\n" ++ answer ++ "\n\n 사용된 툴: " ++ "없음" := rfl

/-- C3: on `[(web_search, "a"), (csv_repl, "")]` the filtering keeps
exactly `csv_repl`: `web_search` is dropped (trimmed observation length
1 is not above 30) and `csv_repl` is kept despite its empty
observation. -/
theorem scenario_web_search_excluded_csv_kept :
    (usedToolsLoop
        [⟨"web_search", PyVal.str "a"⟩, ⟨"csv_repl", PyVal.str ""⟩]).dedup =
      ["csv_repl"] := by decide

/-- C5: a tool other than `csv_repl` whose observations are all falsy is
excluded from the used-tools summary; no bound on the observations'
string length is assumed, because `if obs and len(str(obs).strip()) > 30`
tests truthiness before (and independently of) the length. -/
theorem falsy_observation_excluded (steps : List AgentStep) (t : String)
    (hne : t ≠ "csv_repl")
    (hfalsy : ∀ step, step ∈ steps → step.tool = t → pyTruthy step.obs = false) :
    t ∉ (usedToolsLoop steps).dedup := by
  rw [List.mem_dedup, mem_usedToolsLoop]
  rintro ⟨s, hs, hk, ht⟩
  rcases (stepKeeps_iff s).mp hk with hc | hc
  · exact hne (ht ▸ hc)
  · have hfa := hfalsy s hs ht
    rw [hc.1] at hfa
    simp at hfa

/-- Witness for C5: a `web_search` step with observation `None` is
excluded. -/
theorem falsy_observation_excluded_witness :
    ("web_search" : String) ≠ "csv_repl" ∧
    "web_search" ∉ (usedToolsLoop [⟨"web_search", PyVal.none⟩]).dedup :=
  ⟨by decide,
    falsy_observation_excluded [⟨"web_search", PyVal.none⟩] "web_search"
      (by decide) (by decide)⟩

/-- C7: any two strings the post-processing can produce from the same
executor result agree up to the order nondeterminism of
`list(set(used_tools))`: same answer text, tool lists that are
permutations of each other, hence the same set of tool names. -/
theorem post_processing_same_answer_same_set (r : AgentResult) (s₁ s₂ : String)
    (h₁ : IsAskAgentOutput r s₁) (h₂ : IsAskAgentOutput r s₂) :
    ∃ l₁ l₂ : List String,
      s₁ = formatAnswer r.output l₁ ∧ s₂ = formatAnswer r.output l₂ ∧
      List.Perm l₁ l₂ ∧ l₁.toFinset = l₂.toFinset := by
  obtain ⟨l₁, hp₁, he₁⟩ := h₁
  obtain ⟨l₂, hp₂, he₂⟩ := h₂
  exact ⟨l₁, l₂, he₁, he₂, hp₁.trans hp₂.symm,
    List.toFinset_eq_of_perm _ _ (hp₁.trans hp₂.symm)⟩

/-- Witness for C7: two runs of the post-processing on the same
(empty-trace) result. -/
theorem post_processing_same_answer_same_set_witness :
    ∃ l₁ l₂ : List String,
      ask_agent ⟨"ok", []⟩ = formatAnswer "ok" l₁ ∧
      ask_agent ⟨"ok", []⟩ = formatAnswer "ok" l₂ ∧
      List.Perm l₁ l₂ ∧ l₁.toFinset = l₂.toFinset :=
  post_processing_same_answer_same_set ⟨"ok", []⟩ _ _
    ⟨[], of_decide_eq_true rfl, rfl⟩ ⟨[], of_decide_eq_true rfl, rfl⟩

/-- An uploaded file blob from `st.file_uploader`; only its presence (and
opaque content) matters to the control flow. -/
structure UploadedFile where
  content : String

/-- A LangChain tool as this program configures one: a name and a
natural-language description (`Option.none` when the library default
description is used). The callable behavior is external. -/
structure Tool where
  name : String
  description : Option String

/-- `search_web` (src/streamlit_app.py lines 21-22): wraps
`TavilySearchResults(k=6, name="web_search")`; the description is the
Tavily library default. -/
def search_web : Tool :=
  { name := "web_search", description := Option.none }

/-- The configuration record of the LangChain
`RecursiveCharacterTextSplitter`; the splitting behavior itself is
external to the repository. -/
structure RecursiveCharacterTextSplitter where
  chunk_size : Nat
  chunk_overlap : Nat

/-- The splitter constructed inside `load_pdf_files`:
`RecursiveCharacterTextSplitter(chunk_size=1000, chunk_overlap=200)`
(src/streamlit_app.py line 39). -/
def pdf_text_splitter : RecursiveCharacterTextSplitter :=
  { chunk_size := 1000, chunk_overlap := 200 }

/-- Number of overlapping windows of size `chunk_size` whose starts
advance by `stride`, covering a text of length `n`. -/
def num_chunks (chunk_size stride n : Nat) : Nat :=
  if n ≤ chunk_size then 1 else (n - chunk_size - 1) / stride + 2

/-- Modelled from the spec: `text_splitter.split_documents` (line 40) is
the external LangChain splitter, not part of the repository; the spec
describes it as splitting the concatenated page text "into overlapping
chunks (1000 chars, 200 overlap)", i.e. windows of `chunk_size`
characters whose starts advance by `chunk_size - chunk_overlap`, so
that consecutive windows share `chunk_overlap` characters. -/
def split_documents (splitter : RecursiveCharacterTextSplitter)
    (text : List Char) : List (List Char) :=
  let stride := splitter.chunk_size - splitter.chunk_overlap
  (List.range (num_chunks splitter.chunk_size stride text.length)).map
    (fun i => (text.drop (i * stride)).take splitter.chunk_size)

/-- `load_pdf_files` (src/streamlit_app.py lines 28-50): writes the
uploads to temporary files, parses, splits (with `pdf_text_splitter`),
embeds and indexes them — all external — and returns the retrieval tool
of line 45. -/
def load_pdf_files (uploaded_files : List UploadedFile) : Tool :=
  { name := "pdf_search",
    description := Option.some "Search for information from the uploaded PDF files" }

/-- `load_csv_tool` (src/streamlit_app.py lines 56-66): parses the CSV
into a DataFrame bound as `df` in a Python REPL — external — and returns
the REPL tool of line 61. -/
def load_csv_tool (csv_file : UploadedFile) : Tool :=
  { name := "csv_repl",
    description := Option.some
      "Execute Python code to inspect and analyze the CSV data. DataFrame is available as variable `df`." }

/-- The executor configuration `build_agent` assembles
(src/streamlit_app.py lines 72-90): a `gpt-4o-mini` client at
temperature 0, the tool list, `verbose=True` and
`return_intermediate_steps=True`. The prompt template and the runtime
behavior are external. -/
structure AgentExecutor where
  tools : List Tool
  llm_model : String
  temperature : Nat
  verbose : Bool
  return_intermediate_steps : Bool

/-- `build_agent` (src/streamlit_app.py lines 72-90). -/
def build_agent (tools : List Tool) : AgentExecutor :=
  { tools := tools, llm_model := "gpt-4o-mini", temperature := 0,
    verbose := true, return_intermediate_steps := true }

/-- One entry of `st.session_state["messages"]`. -/
structure Message where
  role : String
  content : String

/-- What the `main` page shows: either the static credentials warning,
or the chat transcript rendered top to bottom. -/
inductive Rendered where
  | warning (msg : String)
  | chat (messages : List Message)

/-- The observable outcome of one run of `main`: whether the API keys
were written to the environment, the tool list passed to `build_agent`
(`Option.none` when the gate failed), the built executor configuration,
the session transcript afterwards (`Option.none` when the
`"messages"` key was never initialized), and what is rendered. -/
structure MainResult where
  env : Option (String × String)
  tools : Option (List Tool)
  agent : Option AgentExecutor
  session : Option (List Message)
  rendered : Rendered

/-- The tool assembly of `main` (src/streamlit_app.py lines 134-138):
start from `[search_web()]`, append the PDF tool when `pdf_docs` is
truthy (a non-empty upload list), append the CSV tool when `csv_file`
is not `None`. -/
def assemble_tools (pdf_docs : List UploadedFile)
    (csv_file : Option UploadedFile) : List Tool :=
  let tools := [search_web]
  let tools := if pdf_docs.isEmpty then tools else tools ++ [load_pdf_files pdf_docs]
  match csv_file with
  | Option.some f => tools ++ [load_csv_tool f]
  | Option.none => tools

/-- One run of `main` (src/streamlit_app.py lines 118-156; named
`main_run` here because Lean reserves `main` for executables), from the
widget values of this rerun. Streamlit widgets supply the credential
strings, the uploads, the chat input (`Option.none` when no message was
submitted) and the session state; the agent invocation is the external
oracle `invoke`. Python truthiness gates: `if openai_api and tavily_api`
and `if user_input` are non-emptiness tests on strings. -/
def main_run (openai_api tavily_api : String)
    (pdf_docs : List UploadedFile) (csv_file : Option UploadedFile)
    (invoke : String → AgentResult) (user_input : Option String)
    (session : Option (List Message)) : MainResult :=
  if openai_api ≠ "" ∧ tavily_api ≠ "" then
    let tools := assemble_tools pdf_docs csv_file
    let agent_executor := build_agent tools
    let messages₀ := session.getD []
    let messages :=
      match user_input with
      | Option.some q =>
        if q ≠ "" then
          messages₀ ++ [⟨"user", q⟩, ⟨"assistant", ask_agent (invoke q)⟩]
        else messages₀
      | Option.none => messages₀
    { env := Option.some (openai_api, tavily_api),
      tools := Option.some tools,
      agent := Option.some agent_executor,
      session := Option.some messages,
      rendered := Rendered.chat messages }
  else
    { env := Option.none, tools := Option.none, agent := Option.none,
      session := session,
      rendered := Rendered.warning "API 키를 입력하세요." }

theorem assemble_tools_nil_none :
    assemble_tools [] Option.none = [search_web] := rfl

theorem assemble_tools_cons_none (d : UploadedFile) (ds : List UploadedFile) :
    assemble_tools (d :: ds) Option.none =
      [search_web, load_pdf_files (d :: ds)] := rfl

theorem assemble_tools_nil_some (f : UploadedFile) :
    assemble_tools [] (Option.some f) = [search_web, load_csv_tool f] := rfl

theorem assemble_tools_cons_some (d : UploadedFile) (ds : List UploadedFile)
    (f : UploadedFile) :
    assemble_tools (d :: ds) (Option.some f) =
      [search_web, load_pdf_files (d :: ds), load_csv_tool f] := rfl

/-- C4: the tool list passed to the agent builder has at most 3 (hence
between 0 and 3) elements; with no PDF uploads no `pdf_search` tool is
in it, and with no CSV upload no `csv_repl` tool is in it. -/
theorem tool_list_bounded_conditional (pdf_docs : List UploadedFile)
    (csv_file : Option UploadedFile) :
    (assemble_tools pdf_docs csv_file).length ≤ 3 ∧
    (pdf_docs = [] →
      ∀ t ∈ assemble_tools pdf_docs csv_file, t.name ≠ "pdf_search") ∧
    (csv_file = Option.none →
      ∀ t ∈ assemble_tools pdf_docs csv_file, t.name ≠ "csv_repl") := by
  cases csv_file with
  | none =>
    cases pdf_docs with
    | nil =>
      refine ⟨by simp [assemble_tools_nil_none], ?_, ?_⟩ <;>
        · intro _ t ht
          rw [assemble_tools_nil_none] at ht
          simp at ht
          simp [ht, search_web]
    | cons d ds =>
      refine ⟨by simp [assemble_tools_cons_none], ?_, ?_⟩
      · intro hcontra; cases hcontra
      · intro _ t ht
        rw [assemble_tools_cons_none] at ht
        simp at ht
        rcases ht with ht | ht <;> simp [ht, search_web, load_pdf_files]
  | some f =>
    cases pdf_docs with
    | nil =>
      refine ⟨by simp [assemble_tools_nil_some], ?_, ?_⟩
      · intro _ t ht
        rw [assemble_tools_nil_some] at ht
        simp at ht
        rcases ht with ht | ht <;> simp [ht, search_web, load_csv_tool]
      · intro hcontra; cases hcontra
    | cons d ds =>
      refine ⟨by simp [assemble_tools_cons_some], ?_, ?_⟩
      · intro hcontra; cases hcontra
      · intro hcontra; cases hcontra

/-- Witness for C4: with no uploads at all the list is short and has
neither `pdf_search` nor `csv_repl`. -/
theorem tool_list_bounded_conditional_witness :
    (assemble_tools [] Option.none).length ≤ 3 ∧
    (∀ t ∈ assemble_tools [] Option.none, t.name ≠ "pdf_search") ∧
    (∀ t ∈ assemble_tools [] Option.none, t.name ≠ "csv_repl") :=
  ⟨(tool_list_bounded_conditional [] Option.none).1,
   (tool_list_bounded_conditional [] Option.none).2.1 rfl,
   (tool_list_bounded_conditional [] Option.none).2.2 rfl⟩

/-- C6: when both API keys are non-empty, the tool list handed to
`build_agent` starts with the `web_search` tool regardless of the
uploads, and has between 1 and 3 elements. -/
theorem web_search_first_tool (openai_api tavily_api : String)
    (pdf_docs : List UploadedFile) (csv_file : Option UploadedFile)
    (invoke : String → AgentResult) (user_input : Option String)
    (session : Option (List Message))
    (h₁ : openai_api ≠ "") (h₂ : tavily_api ≠ "") :
    ∃ ts,
      (main_run openai_api tavily_api pdf_docs csv_file invoke user_input
          session).tools = Option.some ts ∧
      ts.head? = Option.some search_web ∧ 1 ≤ ts.length ∧ ts.length ≤ 3 := by
  refine ⟨assemble_tools pdf_docs csv_file, ?_, ?_, ?_, ?_⟩
  · simp [main_run, h₁, h₂]
  · cases csv_file with
    | none =>
      cases pdf_docs with
      | nil => rw [assemble_tools_nil_none]; rfl
      | cons d ds => rw [assemble_tools_cons_none]; rfl
    | some f =>
      cases pdf_docs with
      | nil => rw [assemble_tools_nil_some]; rfl
      | cons d ds => rw [assemble_tools_cons_some]; rfl
  · cases csv_file with
    | none =>
      cases pdf_docs with
      | nil => rw [assemble_tools_nil_none]; simp
      | cons d ds => rw [assemble_tools_cons_none]; simp
    | some f =>
      cases pdf_docs with
      | nil => rw [assemble_tools_nil_some]; simp
      | cons d ds => rw [assemble_tools_cons_some]; simp
  · cases csv_file with
    | none =>
      cases pdf_docs with
      | nil => rw [assemble_tools_nil_none]; simp
      | cons d ds => rw [assemble_tools_cons_none]; simp
    | some f =>
      cases pdf_docs with
      | nil => rw [assemble_tools_nil_some]; simp
      | cons d ds => rw [assemble_tools_cons_some]; simp

/-- Witness for C6: both keys present, no uploads. -/
theorem web_search_first_tool_witness :
    ∃ ts,
      (main_run "k1" "k2" [] Option.none (fun q => ⟨q, []⟩) Option.none
          Option.none).tools = Option.some ts ∧
      ts.head? = Option.some search_web ∧ 1 ≤ ts.length ∧ ts.length ≤ 3 :=
  web_search_first_tool "k1" "k2" [] Option.none (fun q => ⟨q, []⟩)
    Option.none Option.none (by decide) (by decide)

/-- C8: if either credential string is empty, the run only renders the
static warning: no environment write, no tool assembly, no agent build,
and the session state is left untouched. -/
theorem missing_credentials_only_warning (openai_api tavily_api : String)
    (pdf_docs : List UploadedFile) (csv_file : Option UploadedFile)
    (invoke : String → AgentResult) (user_input : Option String)
    (session : Option (List Message))
    (h : openai_api = "" ∨ tavily_api = "") :
    main_run openai_api tavily_api pdf_docs csv_file invoke user_input session =
      { env := Option.none, tools := Option.none, agent := Option.none,
        session := session,
        rendered := Rendered.warning "API 키를 입력하세요." } := by
  have hneg : ¬(openai_api ≠ "" ∧ tavily_api ≠ "") := by
    rcases h with h | h <;> simp [h]
  simp [main_run, hneg]

/-- Witness for C8: an empty OpenAI key. -/
theorem missing_credentials_only_warning_witness :
    main_run "" "k2" [] Option.none (fun q => ⟨q, []⟩) Option.none
        Option.none =
      { env := Option.none, tools := Option.none, agent := Option.none,
        session := Option.none,
        rendered := Rendered.warning "API 키를 입력하세요." } :=
  missing_credentials_only_warning "" "k2" [] Option.none (fun q => ⟨q, []⟩)
    Option.none Option.none (Or.inl rfl)

/-- C9: the transcript is append-only: a submitted question appends
exactly the user entry followed by the assistant entry to the existing
transcript, and a run without a question leaves the (initialized)
transcript unchanged. -/
theorem transcript_append_two (openai_api tavily_api : String)
    (pdf_docs : List UploadedFile) (csv_file : Option UploadedFile)
    (invoke : String → AgentResult) (q : String)
    (session : Option (List Message))
    (h₁ : openai_api ≠ "") (h₂ : tavily_api ≠ "") (hq : q ≠ "") :
    (main_run openai_api tavily_api pdf_docs csv_file invoke (Option.some q)
        session).session =
      Option.some (session.getD [] ++
        [⟨"user", q⟩, ⟨"assistant", ask_agent (invoke q)⟩]) ∧
    (main_run openai_api tavily_api pdf_docs csv_file invoke Option.none
        session).session = Option.some (session.getD []) := by
  constructor <;> simp [main_run, h₁, h₂, hq]

/-- Witness for C9: a question submitted on top of a one-entry
transcript. -/
theorem transcript_append_two_witness :
    (main_run "k1" "k2" [] Option.none (fun q => ⟨q, []⟩) (Option.some "hi")
        (Option.some [⟨"user", "old"⟩])).session =
      Option.some ([⟨"user", "old"⟩] ++
        [⟨"user", "hi"⟩, ⟨"assistant", ask_agent ⟨"hi", []⟩⟩]) ∧
    (main_run "k1" "k2" [] Option.none (fun q => ⟨q, []⟩) Option.none
        (Option.some [⟨"user", "old"⟩])).session =
      Option.some [⟨"user", "old"⟩] :=
  transcript_append_two "k1" "k2" [] Option.none (fun q => ⟨q, []⟩) "hi"
    (Option.some [⟨"user", "old"⟩]) (by decide) (by decide) (by decide)

/-- The number of chunks the modelled splitter produces. -/
theorem split_documents_length (text : List Char) :
    (split_documents pdf_text_splitter text).length =
      num_chunks 1000 800 text.length := by
  simp [split_documents, pdf_text_splitter]

/-- The `j`-th chunk of the modelled splitter at the configuration of
`load_pdf_files`: the window of 1000 characters starting at `j * 800`. -/
theorem split_documents_getD (text : List Char) (j : Nat)
    (hj : j < (split_documents pdf_text_splitter text).length) :
    (split_documents pdf_text_splitter text).getD j [] =
      (text.drop (j * 800)).take 1000 := by
  have hj2 : j < num_chunks 1000 800 text.length := by
    rw [← split_documents_length]; exact hj
  simp only [split_documents, pdf_text_splitter, List.getD_eq_getElem?_getD,
    List.getElem?_map]
  rw [List.getElem?_range hj2]
  rfl

/-- C10: `load_pdf_files` splits the concatenated page text with chunk
size 1000 and overlap 200: every chunk has at most 1000 characters, and
every chunk followed by another one is a full 1000-character window
whose last 200 characters are exactly the first 200 characters of the
next chunk. -/
theorem pdf_chunks_1000_200 (text : List Char) (i : Nat)
    (h : i + 1 < (split_documents pdf_text_splitter text).length) :
    pdf_text_splitter.chunk_size = 1000 ∧
    pdf_text_splitter.chunk_overlap = 200 ∧
    (∀ c ∈ split_documents pdf_text_splitter text, c.length ≤ 1000) ∧
    ((split_documents pdf_text_splitter text).getD i []).length = 1000 ∧
    ((split_documents pdf_text_splitter text).getD i []).drop 800 =
      ((split_documents pdf_text_splitter text).getD (i + 1) []).take 200 ∧
    (((split_documents pdf_text_splitter text).getD i []).drop 800).length = 200 := by
  have hlen := split_documents_length text
  have hcount : i + 1 < num_chunks 1000 800 text.length := by
    rw [← hlen]; exact h
  have hn : ¬ text.length ≤ 1000 := by
    intro hle
    rw [num_chunks, if_pos hle] at hcount
    omega
  have hk : num_chunks 1000 800 text.length =
      (text.length - 1000 - 1) / 800 + 2 := by
    rw [num_chunks, if_neg hn]
  have hi : i ≤ (text.length - 1000 - 1) / 800 := by
    rw [hk] at hcount; omega
  have hmul : i * 800 ≤ text.length - 1000 - 1 :=
    (Nat.le_div_iff_mul_le (by norm_num)).mp hi
  have hbound : i * 800 + 1001 ≤ text.length := by omega
  have hgi := split_documents_getD text i (by omega)
  have hgi1 := split_documents_getD text (i + 1) h
  refine ⟨rfl, rfl, ?_, ?_, ?_, ?_⟩
  · intro c hc
    simp only [split_documents, pdf_text_splitter, List.mem_map] at hc
    obtain ⟨j, hj, hcj⟩ := hc
    rw [← hcj]
    exact List.length_take_le _ _
  · rw [hgi]
    simp only [List.length_take, List.length_drop]
    omega
  · rw [hgi, hgi1]
    have e1 : ((text.drop (i * 800)).take 1000).drop 800 =
        ((text.drop (i * 800)).drop 800).take 200 :=
      (List.take_drop 800 200 (text.drop (i * 800))).symm
    have e2 : ((text.drop (i * 800)).drop 800) = text.drop (i * 800 + 800) :=
      List.drop_drop 800 (i * 800) text
    have e3 : ((text.drop ((i + 1) * 800)).take 1000).take 200 =
        (text.drop ((i + 1) * 800)).take 200 := by
      rw [List.take_take]
      norm_num
    have e4 : (i + 1) * 800 = i * 800 + 800 := by ring
    rw [e1, e2, e3, e4]
  · rw [hgi]
    simp only [List.length_drop, List.length_take, List.length_drop]
    omega

set_option maxRecDepth 100000 in
/-- Witness for C10: an 1801-character text produces three chunks, and
the second chunk overlaps the third as stated. -/
theorem pdf_chunks_1000_200_witness :
    1 + 1 < (split_documents pdf_text_splitter (List.replicate 1801 'a')).length ∧
    ((split_documents pdf_text_splitter (List.replicate 1801 'a')).getD 1 []).drop 800 =
      ((split_documents pdf_text_splitter (List.replicate 1801 'a')).getD (1 + 1) []).take 200 :=
  ⟨by decide,
    (pdf_chunks_1000_200 (List.replicate 1801 'a') 1 (by decide)).2.2.2.2.1⟩
